import Mathlib

/-!
Shallow embedding of the fastapi-dagobah service, for checking its
natural-language specification.

The repository is a small FastAPI application: configuration
(`app/core/config.py`), a database-backed filing CRUD service
(`app/services/filing_service.py` over `app/models/filing.py`), pydantic
schemas (`app/schemas/*.py`), an HTTP error taxonomy (`app/exceptions.py`),
health and filing endpoints (`app/api/v1/*.py`) and router/bootstrap
composition (`app/api/v1/router.py`, `app/main.py`).

Timestamps are modelled as natural numbers; the database server clock
(`func.now()`) is a field of the store state.  Nullable SQL columns and
optional pydantic fields are `Option`s.  Python keyword arguments with a
default are modelled as an explicit `Option` argument (`none` = argument
omitted at the call site).
-/

namespace Dagobah

/-! ## Configuration (`app/core/config.py`) -/

/-- `Settings` from `app/core/config.py`, with the field defaults declared
there.  `database_url` is optional (absent disables persistence). -/
structure Settings where
  app_name : String
  version : String
  debug : Bool
  database_url : Option String
  apisix_consumer_header : String
  apisix_user_id_header : String
  api_v1_prefix : String
deriving Repr, DecidableEq

/-- The process-wide settings singleton `settings = Settings()`, i.e. every
field at its declared default (no environment overrides). -/
def settings : Settings :=
  { app_name := "FastAPI Dagobah"
    version := "0.1.0"
    debug := false
    database_url := none
    apisix_consumer_header := "X-Consumer-Username"
    apisix_user_id_header := "X-User-ID"
    api_v1_prefix := "/api/v1" }

/-! ## Error taxonomy (`app/exceptions.py`)

Each class extends `HTTPException` with a fixed `status_code` and a
`detail` string.  A single apostrophe character, used by the interpolated
messages. -/

/-- The ASCII apostrophe, as a one-character string. -/
def apos : String := String.singleton (Char.ofNat 39)

/-- The `(status_code, detail)` payload of an `HTTPException`. -/
structure HTTPError where
  status_code : Nat
  detail : String
deriving Repr, DecidableEq

/-- `FilingNotFound(filing_id)`: status 404, detail
`Filing with id '<filing_id>' not found`. -/
def FilingNotFound (filing_id : String) : HTTPError :=
  { status_code := 404
    detail := "Filing with id " ++ apos ++ filing_id ++ apos ++ " not found" }

/-- `FilingAlreadyExists(filing_id)`: status 409, detail
`Filing with id '<filing_id>' already exists`. -/
def FilingAlreadyExists (filing_id : String) : HTTPError :=
  { status_code := 409
    detail := "Filing with id " ++ apos ++ filing_id ++ apos ++ " already exists" }

/-- `DatabaseError(detail="Database operation failed")`: status 500.
`detailArg = none` models calling the constructor without the keyword
argument. -/
def DatabaseError (detailArg : Option String) : HTTPError :=
  { status_code := 500
    detail := detailArg.getD "Database operation failed" }

/-- `ValidationError(detail="Validation failed")`: status 422. -/
def ValidationError (detailArg : Option String) : HTTPError :=
  { status_code := 422
    detail := detailArg.getD "Validation failed" }

/-! ## Filing model and schemas (`app/models/filing.py`, `app/schemas/filing.py`) -/

/-- A row of the `filings` table (`app/models/filing.py`).  At the Python
object level every column attribute can hold `None`, so the non-key columns
are `Option`s here; the `nullable=False` markers are database constraints,
not object-level ones.  `created_at` has a server default at insert;
`updated_at` is server-set on update and absent until then. -/
structure FilingRow where
  id : Nat
  filing_id : String
  company_name : Option String
  form_type : Option String
  filing_date : Option Nat
  content : Option String
  created_at : Option Nat
  updated_at : Option Nat
deriving Repr, DecidableEq

/-- `FilingCreate` (`app/schemas/filing.py`): all base fields required,
`content` optional. -/
structure FilingCreate where
  filing_id : String
  company_name : String
  form_type : String
  filing_date : Nat
  content : Option String
deriving Repr, DecidableEq

/-- `FilingUpdate` (`app/schemas/filing.py`): a sparse patch.  The outer
`Option` is pydantic field presence (`exclude_unset`): `none` = the field
was not supplied, `some v` = the field was explicitly supplied with value
`v` (which may itself be `none`, i.e. an explicit null). -/
structure FilingUpdate where
  company_name : Option (Option String)
  form_type : Option (Option String)
  filing_date : Option (Option Nat)
  content : Option (Option String)
deriving Repr, DecidableEq

/-- The all-unset patch (`FilingUpdate()` with no arguments). -/
def FilingUpdate.empty : FilingUpdate :=
  { company_name := none, form_type := none, filing_date := none, content := none }

/-- Whether `filing_data.dict(exclude_unset=True)` is nonempty, i.e. at
least one field was explicitly supplied.  When it is empty no attribute is
written, so no UPDATE statement is flushed at commit. -/
def FilingUpdate.hasSetField (p : FilingUpdate) : Bool :=
  p.company_name.isSome || p.form_type.isSome ||
    p.filing_date.isSome || p.content.isSome

/-! ## The store and the filing service (`app/services/filing_service.py`)

The database visible through one session: a list of rows in natural
(insertion) order, the autoincrement counter for `id`, and the server
clock `now` used by `func.now()`. -/

structure Store where
  rows : List FilingRow
  nextId : Nat
  now : Nat
deriving Repr, DecidableEq

/-- The empty database. -/
def Store.empty : Store := { rows := [], nextId := 1, now := 0 }

/-- Invariants the database schema enforces on every reachable store:
primary keys are unique and the `filing_id` column carries a unique
index. -/
def Store.WellFormed (s : Store) : Prop :=
  (s.rows.map (·.id)).Nodup ∧ (s.rows.map (·.filing_id)).Nodup

instance (s : Store) : Decidable s.WellFormed := by
  unfold Store.WellFormed; infer_instance

/-- `FilingService.get_filing_by_id`: `SELECT ... WHERE filing_id = :x`
followed by `scalar_one_or_none()`.  The unique index on `filing_id`
guarantees at most one match, so the row is the first (only) match in the
store; no match gives the absent sentinel `none`. -/
def getFilingById (s : Store) (filing_id : String) : Option FilingRow :=
  s.rows.find? (fun r => r.filing_id == filing_id)

/-- `FilingService.get_filings(skip, limit)`:
`SELECT ... OFFSET skip LIMIT limit` in the store's natural order. -/
def getFilings (s : Store) (skip limit : Nat) : List FilingRow :=
  (s.rows.drop skip).take limit

/-- `FilingService.create_filing`: builds `Filing(**filing_data.dict())`,
adds it, commits, refreshes.  The service does not pre-check uniqueness;
a duplicate `filing_id` surfaces as the store-level uniqueness failure at
commit, modelled as the error branch.  At insert the server assigns `id`
(autoincrement) and `created_at` (`server_default=func.now()`);
`updated_at` has no insert default and stays absent. -/
def createFiling (s : Store) (d : FilingCreate) :
    Except HTTPError (FilingRow × Store) :=
  if s.rows.any (fun r => r.filing_id == d.filing_id) then
    .error (DatabaseError none)
  else
    let row : FilingRow :=
      { id := s.nextId
        filing_id := d.filing_id
        company_name := some d.company_name
        form_type := some d.form_type
        filing_date := some d.filing_date
        content := d.content
        created_at := some s.now
        updated_at := none }
    .ok (row, { rows := s.rows ++ [row], nextId := s.nextId + 1, now := s.now })

/-- The `for field, value in update_data.items(): setattr(filing, field, value)`
loop: writes exactly the explicitly supplied patch fields onto the row. -/
def applyPatch (r : FilingRow) (p : FilingUpdate) : FilingRow :=
  { r with
    company_name := p.company_name.getD r.company_name
    form_type := p.form_type.getD r.form_type
    filing_date := p.filing_date.getD r.filing_date
    content := p.content.getD r.content }

/-- `FilingService.update_filing(filing_id, filing_data)`: looks the row up
by external id; absent gives `(none, unchanged store)`.  Otherwise applies
the explicitly supplied patch fields, commits and refreshes: if any
attribute was written, the flushed UPDATE fires `onupdate=func.now()` on
`updated_at`; with an empty patch nothing is flushed. -/
def updateFiling (s : Store) (filing_id : String) (p : FilingUpdate) :
    Option FilingRow × Store :=
  match getFilingById s filing_id with
  | none => (none, s)
  | some f =>
    let f' := applyPatch f p
    let f'' := if p.hasSetField then { f' with updated_at := some s.now } else f'
    (some f'',
      { s with rows := s.rows.map (fun r => if r.id == f.id then f'' else r) })

/-- `FilingService.delete_filing(filing_id)`: looks the row up by external
id; absent gives `false` with the store unchanged; otherwise deletes that
row (by primary key identity), commits, and returns `true`. -/
def deleteFiling (s : Store) (filing_id : String) : Bool × Store :=
  match getFilingById s filing_id with
  | none => (false, s)
  | some f => (true, { s with rows := s.rows.filter (fun r => r.id != f.id) })

/-! ## Response envelopes (`app/schemas/response.py`) -/

/-- `ErrorResponse`: pydantic model with fields `success: bool = False`,
`error: str`, `detail: Optional[str] = None`. -/
structure ErrorResponse where
  success : Bool
  error : String
  detail : Option String
deriving Repr, DecidableEq

/-- The pydantic constructor `ErrorResponse(...)`.  `success` and `detail`
have declared defaults, so each is modelled as an `Option` argument:
`none` = the keyword was omitted and the default applies, `some v` = the
caller passed `v` explicitly.  `error` has no default and is required. -/
def mkErrorResponse (successArg : Option Bool) (error : String)
    (detailArg : Option (Option String)) : ErrorResponse :=
  { success := successArg.getD false
    error := error
    detail := detailArg.getD none }

/-! ## Request context (`app/core/deps.py`) -/

/-- Inbound request headers, as a name/value association list. -/
def Headers := List (String × String)

/-- Header lookup: the header's value, or absent. -/
def headerValue (hs : Headers) (name : String) : Option String :=
  (List.find? (fun h => h.1 == name) hs).map (·.2)

/-- The identity context `get_consumer_info` returns. -/
structure ConsumerInfo where
  consumer : Option String
  user_id : Option String
deriving Repr, DecidableEq

/-- `get_consumer_info` (`app/core/deps.py`): reads the two gateway
headers, whose names come from settings; absence is not an error. -/
def getConsumerInfo (hs : Headers) : ConsumerInfo :=
  { consumer := headerValue hs settings.apisix_consumer_header
    user_id := headerValue hs settings.apisix_user_id_header }

/-! ## Filing endpoints (`app/api/v1/filings.py`)

Both handlers are stubs: they depend only on the identity context (and the
path parameter) and never touch the database or the filing service. -/

/-- The JSON body returned by `list_filings`. -/
structure ListFilingsBody where
  filings : List FilingRow
  consumer : Option String
  user_id : Option String
  message : String
deriving Repr, DecidableEq

/-- The JSON body returned by `get_filing`. -/
structure GetFilingBody where
  filing_id : String
  consumer : Option String
  user_id : Option String
  message : String
deriving Repr, DecidableEq

/-- `list_filings` handler body. -/
def listFilingsHandler (info : ConsumerInfo) : ListFilingsBody :=
  { filings := []
    consumer := info.consumer
    user_id := info.user_id
    message := "Filings endpoint - ready for implementation" }

/-- `get_filing` handler body. -/
def getFilingHandler (filing_id : String) (info : ConsumerInfo) : GetFilingBody :=
  { filing_id := filing_id
    consumer := info.consumer
    user_id := info.user_id
    message := "Filing detail endpoint - ready for implementation" }

/-- The full list-filings endpoint as served: dependency resolution reads
the headers, then the handler runs.  It takes the database state as an
argument to make its independence from it statable; the handler itself has
no database dependency. -/
def listFilingsEndpoint (hs : Headers) (_db : Store) : ListFilingsBody :=
  listFilingsHandler (getConsumerInfo hs)

/-- The full get-filing endpoint as served (path parameter plus headers),
with the database state as an unused argument as above. -/
def getFilingEndpoint (filing_id : String) (hs : Headers) (_db : Store) :
    GetFilingBody :=
  getFilingHandler filing_id (getConsumerInfo hs)

/-! ## Health endpoints (`app/api/v1/health.py`, `app/core/database.py`)

`readiness_check` declares `db: AsyncSession = Depends(get_db)`.  The
dependency chain (`get_db` → `get_db_session`) runs before the handler
body: `get_db_session` raises `RuntimeError("Database not initialized...")`
when `async_session_maker` is unset, and that exception occurs during
dependency resolution, outside the handler's `try`, so the framework turns
it into a plain 500 response.  Once a session is acquired, connecting is
deferred until `db.execute(text("SELECT 1"))`, so connectivity failures
surface inside the `try` and are caught. -/

/-- Process database state as the readiness endpoint sees it:
either `init_db()` was never run (`async_session_maker` is unset), or a
session can be produced and the probe query has the given outcome
(`.ok ()` = `SELECT 1` succeeds, `.error msg` = it raises with text
`msg`). -/
inductive DbEnv where
  | uninitialized
  | initialized (probe : Except String Unit)

/-- `get_db_session` (`app/core/database.py`): raises when the session
factory is unset, otherwise yields a session (carrying its probe
outcome). -/
def getDbSession (env : DbEnv) : Except String (Except String Unit) :=
  match env with
  | .uninitialized => .error "Database not initialized. Call init_db() first."
  | .initialized probe => .ok probe

/-- The JSON body of a health response (fields as emitted by the
handlers; `database` and `error` appear only on the readiness paths). -/
structure HealthBody where
  status : String
  service : String
  version : String
  database : Option String
  error : Option String
deriving Repr, DecidableEq

/-- An HTTP response at the transport level: the status code and either a
handler-produced JSON body or the framework's plain internal-error page. -/
inductive HealthHttpResponse where
  | json (status : Nat) (body : HealthBody)
  | internalServerError
deriving Repr, DecidableEq

/-- Status code of a response (the framework's error page is 500). -/
def HealthHttpResponse.statusCode : HealthHttpResponse → Nat
  | .json s _ => s
  | .internalServerError => 500

/-- `health_check` (`GET /health`): always healthy. -/
def healthCheckHandler : HealthBody :=
  { status := "healthy"
    service := settings.app_name
    version := settings.version
    database := none
    error := none }

/-- The `readiness_check` handler body: runs with a session already
resolved; its `try` wraps only the probe query. -/
def readinessHandler (probe : Except String Unit) : HealthBody :=
  match probe with
  | .ok _ =>
    { status := "ready"
      service := settings.app_name
      version := settings.version
      database := some "connected"
      error := none }
  | .error e =>
    { status := "not ready"
      service := settings.app_name
      version := settings.version
      database := some "disconnected"
      error := some e }

/-- The readiness endpoint as served: resolve the `get_db` dependency
first; a failure there propagates as the framework's 500, only a resolved
session reaches the handler body. -/
def readinessEndpoint (env : DbEnv) : HealthHttpResponse :=
  match getDbSession env with
  | .error _ => .internalServerError
  | .ok probe => .json 200 (readinessHandler probe)

/-! ## Routing (`app/api/v1/router.py`, `app/main.py`)

A route path is a list of segments, the result of splitting the decorator
path string on `/` and dropping empty segments; a `\x7bname\x7d` segment
is a parameter capture.  `include_router(r, prefix=p)` prepends `p`'s
segments to every route path of `r`. -/

/-- A path segment: literal, or a `\x7bname\x7d` parameter capture. -/
inductive Seg where
  | lit (s : String)
  | param (name : String)
deriving Repr, DecidableEq

/-- Identifies which handler a route points at. -/
inductive HandlerId where
  | healthCheck
  | readinessCheck
  | listFilings
  | getFiling
deriving Repr, DecidableEq

/-- A registered route: method, path pattern, handler. -/
structure Route where
  method : String
  path : List Seg
  handler : HandlerId
deriving Repr, DecidableEq

/-- The routes declared in `app/api/v1/health.py`:
`@router.get("/health")` and `@router.get("/health/ready")`. -/
def healthRouterRoutes : List Route :=
  [ { method := "GET", path := [.lit "health"], handler := .healthCheck }
  , { method := "GET", path := [.lit "health", .lit "ready"],
      handler := .readinessCheck } ]

/-- The routes declared in `app/api/v1/filings.py`:
`@router.get("/filings")` and `@router.get("/filings/\x7bfiling_id\x7d")`
— both decorators themselves start with a `/filings` segment. -/
def filingsRouterRoutes : List Route :=
  [ { method := "GET", path := [.lit "filings"], handler := .listFilings }
  , { method := "GET", path := [.lit "filings", .param "filing_id"],
      handler := .getFiling } ]

/-- `include_router(r, prefix=p)` with `p` already split into segments. -/
def includeRouter (rs : List Route) (p : List Seg) : List Route :=
  rs.map (fun r => { r with path := p ++ r.path })

/-- `app/api/v1/router.py`: health routes at the router root (no prefix),
filing routes under the additional `prefix="/filings"`. -/
def apiV1Routes : List Route :=
  includeRouter healthRouterRoutes [] ++
    includeRouter filingsRouterRoutes [.lit "filings"]

/-- The segments of `settings.api_v1_prefix = "/api/v1"`. -/
def apiV1PrefixSegs : List Seg := [.lit "api", .lit "v1"]

/-- `app/main.py`: the v1 router mounted at `prefix=settings.api_v1_prefix`. -/
def appRoutes : List Route :=
  includeRouter apiV1Routes apiV1PrefixSegs

/-- Whether one pattern segment accepts one concrete segment. -/
def segMatches (p : Seg) (t : String) : Bool :=
  match p with
  | .lit s => s == t
  | .param _ => true

/-- Whether a path pattern accepts a concrete segment list. -/
def pathMatches : List Seg → List String → Bool
  | [], [] => true
  | p :: ps, t :: ts => segMatches p t && pathMatches ps ts
  | _, _ => false

/-- Request dispatch: the first registered route whose method and pattern
accept the request wins. -/
def dispatch (rs : List Route) (method : String) (segs : List String) :
    Option HandlerId :=
  (rs.find? (fun r => r.method == method && pathMatches r.path segs)).map
    (·.handler)

/-! ## Concrete fixtures

Small concrete stores used to evaluate the theorems below at explicit
inputs. -/

/-- A persisted filing row, as after one successful create. -/
def row1 : FilingRow :=
  { id := 1
    filing_id := "F1"
    company_name := some "Acme"
    form_type := some "10-K"
    filing_date := some 5
    content := none
    created_at := some 3
    updated_at := none }

/-- A second persisted filing row. -/
def row2 : FilingRow :=
  { id := 2
    filing_id := "F2"
    company_name := some "Globex"
    form_type := some "8-K"
    filing_date := some 6
    content := some "body"
    created_at := some 4
    updated_at := none }

/-- A store holding one filing. -/
def st1 : Store := { rows := [row1], nextId := 2, now := 9 }

/-- A store holding two filings. -/
def st2 : Store := { rows := [row1, row2], nextId := 3, now := 9 }

/-- A sparse patch that explicitly nulls `content` and renames the
company, leaving `form_type` and `filing_date` unset. -/
def patch1 : FilingUpdate :=
  { company_name := some (some "Acme Holdings")
    form_type := none
    filing_date := none
    content := some none }

/-- A creation input whose `filing_id` is not yet in `st1`. -/
def create1 : FilingCreate :=
  { filing_id := "F2"
    company_name := "Globex"
    form_type := "8-K"
    filing_date := 7
    content := some "body" }

/-! ## Claim theorems -/

/-- Claim C1, as stated, is false on the code: with the default
configuration the list-filings handler is NOT reachable at a single
`/filings` segment under the versioned prefix.  `GET /api/v1/filings`
matches no route, while `GET /api/v1/filings/filings` reaches the
list-filings handler — because `router.py` mounts the filings router
under `prefix="/filings"` and the handler decorators in `filings.py`
themselves start with a `/filings` segment. -/
theorem C1_counterexample :
    dispatch appRoutes "GET" ["api", "v1", "filings"] = none ∧
    dispatch appRoutes "GET" ["api", "v1", "filings", "filings"] =
      some HandlerId.listFilings := by
  decide

/-- Claim C1 amended: with the default configuration the filing handlers
are reachable at exactly two `/filings` path segments under the versioned
prefix — `GET /api/v1/filings/filings` serves the list stub and
`GET /api/v1/filings/filings/X` (for any path parameter `X`) serves the
detail stub, while `GET /api/v1/filings` matches no route. -/
theorem C1_amended_thm (x : String) :
    dispatch appRoutes "GET" ["api", "v1", "filings", "filings"] =
      some HandlerId.listFilings ∧
    dispatch appRoutes "GET" ["api", "v1", "filings", "filings", x] =
      some HandlerId.getFiling ∧
    dispatch appRoutes "GET" ["api", "v1", "filings"] = none := by
  refine ⟨by decide, ?_, by decide⟩
  simp [dispatch, appRoutes, apiV1Routes, apiV1PrefixSegs, includeRouter,
    healthRouterRoutes, filingsRouterRoutes, pathMatches, segMatches,
    List.find?]

/-- Claim C2: for every existing filing and every patch, `update_filing`
applies exactly the fields explicitly present in the patch to the returned
record — an explicitly supplied field (even an explicit null) is written,
and each patchable field omitted from the patch keeps its prior value. -/
theorem C2_thm (s : Store) (fid : String) (p : FilingUpdate) (f : FilingRow)
    (h : getFilingById s fid = some f) :
    ∃ r, (updateFiling s fid p).1 = some r ∧
      (∀ v, p.company_name = some v → r.company_name = v) ∧
      (p.company_name = none → r.company_name = f.company_name) ∧
      (∀ v, p.form_type = some v → r.form_type = v) ∧
      (p.form_type = none → r.form_type = f.form_type) ∧
      (∀ v, p.filing_date = some v → r.filing_date = v) ∧
      (p.filing_date = none → r.filing_date = f.filing_date) ∧
      (∀ v, p.content = some v → r.content = v) ∧
      (p.content = none → r.content = f.content) := by
  unfold updateFiling
  rw [h]
  refine ⟨_, rfl, ?_, ?_, ?_, ?_, ?_, ?_, ?_, ?_⟩ <;>
    cases hP : p.hasSetField <;>
    first
      | (intro v hv; simp [applyPatch, hv])
      | (intro hv; simp [applyPatch, hv])

/-- Claim C2 at a concrete input: updating `st1`'s only filing with a
patch that renames the company and explicitly nulls `content` writes both
supplied fields and keeps the unset `form_type` and `filing_date`. -/
theorem C2_witness :
    ∃ r, (updateFiling st1 "F1" patch1).1 = some r ∧
      (∀ v, patch1.company_name = some v → r.company_name = v) ∧
      (patch1.company_name = none → r.company_name = row1.company_name) ∧
      (∀ v, patch1.form_type = some v → r.form_type = v) ∧
      (patch1.form_type = none → r.form_type = row1.form_type) ∧
      (∀ v, patch1.filing_date = some v → r.filing_date = v) ∧
      (patch1.filing_date = none → r.filing_date = row1.filing_date) ∧
      (∀ v, patch1.content = some v → r.content = v) ∧
      (patch1.content = none → r.content = row1.content) :=
  C2_thm st1 "F1" patch1 row1 (by decide)

/-- Claim C3: for every valid creation input whose `filing_id` is not
already present, `create_filing` followed by `get_filing_by_id` on the
same id returns a record whose `filing_id`, `company_name`, `form_type`,
`filing_date` and `content` equal the input, with `id` assigned (the
autoincrement counter), `created_at` populated (the server clock) and
`updated_at` absent. -/
theorem C3_thm (s : Store) (d : FilingCreate)
    (h : getFilingById s d.filing_id = none) :
    ∃ r s', createFiling s d = .ok (r, s') ∧
      getFilingById s' d.filing_id = some r ∧
      r.filing_id = d.filing_id ∧
      r.company_name = some d.company_name ∧
      r.form_type = some d.form_type ∧
      r.filing_date = some d.filing_date ∧
      r.content = d.content ∧
      r.id = s.nextId ∧
      r.created_at = some s.now ∧
      r.updated_at = none := by
  have hany : s.rows.any (fun r => r.filing_id == d.filing_id) = false := by
    rw [List.any_eq_false]
    intro r hr
    have := List.find?_eq_none.mp h r hr
    simpa using this
  refine ⟨{ id := s.nextId, filing_id := d.filing_id,
            company_name := some d.company_name, form_type := some d.form_type,
            filing_date := some d.filing_date, content := d.content,
            created_at := some s.now, updated_at := none },
          { rows := s.rows ++
              [{ id := s.nextId, filing_id := d.filing_id,
                 company_name := some d.company_name,
                 form_type := some d.form_type,
                 filing_date := some d.filing_date, content := d.content,
                 created_at := some s.now, updated_at := none }],
            nextId := s.nextId + 1, now := s.now },
          ?_, ?_, rfl, rfl, rfl, rfl, rfl, rfl, rfl, rfl⟩
  · unfold createFiling
    rw [hany]
    rfl
  · unfold getFilingById at h ⊢
    rw [List.find?_append, h]
    simp [List.find?]

/-- Claim C3 at a concrete input: creating `create1` in `st1` and fetching
it back by `"F2"` returns the freshly persisted record. -/
theorem C3_witness :
    ∃ r s', createFiling st1 create1 = .ok (r, s') ∧
      getFilingById s' create1.filing_id = some r ∧
      r.filing_id = create1.filing_id ∧
      r.company_name = some create1.company_name ∧
      r.form_type = some create1.form_type ∧
      r.filing_date = some create1.filing_date ∧
      r.content = create1.content ∧
      r.id = st1.nextId ∧
      r.created_at = some st1.now ∧
      r.updated_at = none :=
  C3_thm st1 create1 (by decide)

/-- Claim C4: `delete_filing` on an absent `filing_id` returns false and
leaves the store unchanged; on a present one (in a store satisfying the
schema's uniqueness constraints) it returns true and a subsequent
`get_filing_by_id` on the same id returns the absent sentinel. -/
theorem C4_thm (s : Store) (fid : String) :
    (getFilingById s fid = none → deleteFiling s fid = (false, s)) ∧
    (∀ f, s.WellFormed → getFilingById s fid = some f →
      (deleteFiling s fid).1 = true ∧
      getFilingById (deleteFiling s fid).2 fid = none) := by
  constructor
  · intro h
    unfold deleteFiling
    rw [h]
  · intro f hwf h
    have hmem : f ∈ s.rows := List.mem_of_find?_eq_some h
    have hfid : f.filing_id = fid := by
      have := List.find?_some h
      simpa using this
    constructor
    · unfold deleteFiling
      rw [h]
    · unfold deleteFiling
      rw [h]
      unfold getFilingById
      dsimp only
      rw [List.find?_eq_none]
      intro r hr hcontra
      obtain ⟨hrmem, hrid⟩ := List.mem_filter.mp hr
      have hrfid : r.filing_id = fid := by simpa using hcontra
      have hrf : r = f :=
        List.inj_on_of_nodup_map hwf.2 hrmem hmem (by rw [hrfid, hfid])
      rw [hrf] at hrid
      simp at hrid

/-- Claim C4 at concrete inputs: deleting the absent `"F9"` from `st1`
returns false and leaves the store unchanged; deleting the present `"F1"`
returns true and a subsequent fetch of `"F1"` is absent. -/
theorem C4_witness :
    deleteFiling st1 "F9" = (false, st1) ∧
    ((deleteFiling st1 "F1").1 = true ∧
      getFilingById (deleteFiling st1 "F1").2 "F1" = none) :=
  ⟨(C4_thm st1 "F9").1 (by decide),
   (C4_thm st1 "F1").2 row1 (by decide) (by decide)⟩

/-- Claim C5: for every store and every `N`, `M`, `get_filings(skip=N,
limit=M)` returns at most `M` records, and the record at position `i` of
the result is the record at position `N + i` of the store's natural
order — i.e. the stored filings with the first `N` excluded. -/
theorem C5_thm (s : Store) (N M : Nat) :
    (getFilings s N M).length ≤ M ∧
    ∀ i, i < (getFilings s N M).length →
      (getFilings s N M)[i]? = s.rows[N + i]? := by
  constructor
  · simp [getFilings]
  · intro i hi
    unfold getFilings at hi ⊢
    have hiM : i < M := lt_of_lt_of_le hi (by simp)
    rw [List.getElem?_take_of_lt hiM, List.getElem?_drop]

/-- Claim C5 at a concrete input: listing `st2` with `skip=1, limit=1`
yields at most one record, and its first element is `st2`'s second row. -/
theorem C5_witness :
    (getFilings st2 1 1).length ≤ 1 ∧
    (getFilings st2 1 1)[0]? = st2.rows[1 + 0]? :=
  ⟨(C5_thm st2 1 1).1, (C5_thm st2 1 1).2 0 (by decide)⟩

/-- Claim C6, as stated, is false on the code: when the database was never
initialized, the `get_db` dependency raises during dependency resolution,
before the handler's `try` block runs, so the readiness endpoint answers
with the framework's plain 500 — not an HTTP 200 "not ready" body. -/
theorem C6_counterexample :
    (readinessEndpoint DbEnv.uninitialized).statusCode ≠ 200 ∧
    readinessEndpoint DbEnv.uninitialized =
      HealthHttpResponse.internalServerError :=
  ⟨by decide, rfl⟩

/-- Claim C6 amended: once a session is resolved the readiness handler
always answers HTTP 200 — status "ready"/"connected" when the probe
succeeds, status "not ready"/"disconnected" with the failure's text when
the probe raises — but a session-acquisition failure (the
database-not-initialized error) happens during dependency resolution,
outside the handler's `try`, and propagates as the framework's 500. -/
theorem C6_amended_thm (p : Except String Unit) :
    (readinessEndpoint (DbEnv.initialized p)).statusCode = 200 ∧
    (∀ u, p = .ok u →
      readinessEndpoint (DbEnv.initialized p) = .json 200
        { status := "ready", service := settings.app_name,
          version := settings.version, database := some "connected",
          error := none }) ∧
    (∀ e, p = .error e →
      readinessEndpoint (DbEnv.initialized p) = .json 200
        { status := "not ready", service := settings.app_name,
          version := settings.version, database := some "disconnected",
          error := some e }) ∧
    readinessEndpoint DbEnv.uninitialized =
      HealthHttpResponse.internalServerError := by
  refine ⟨rfl, ?_, ?_, rfl⟩
  · rintro u rfl
    rfl
  · rintro e rfl
    rfl

/-- Claim C6 (amended) at concrete inputs: a succeeding probe gives the
ready body, a probe raising "connection refused" gives the degraded 200
body carrying that text. -/
theorem C6_witness :
    readinessEndpoint (DbEnv.initialized (Except.ok ())) = .json 200
      { status := "ready", service := settings.app_name,
        version := settings.version, database := some "connected",
        error := none } ∧
    readinessEndpoint (DbEnv.initialized (Except.error "connection refused")) =
      .json 200
        { status := "not ready", service := settings.app_name,
          version := settings.version, database := some "disconnected",
          error := some "connection refused" } :=
  ⟨(C6_amended_thm (.ok ())).2.1 () rfl,
   (C6_amended_thm (.error "connection refused")).2.2.1 "connection refused" rfl⟩

/-- Claim C7, as stated, is false on the code: `success: bool = False` on
`ErrorResponse` is an ordinary pydantic default, not a frozen literal, so
a caller passing `success=True` constructs an `ErrorResponse` whose
success flag is true. -/
theorem C7_counterexample :
    (mkErrorResponse (some true) "boom" none).success = true := rfl

/-- Claim C7 amended: the success flag of `ErrorResponse` defaults to
false — every value constructed without an explicit `success` argument has
it false — but an explicitly supplied `success` value is accepted
unchanged, so the flag is a default rather than an invariant. -/
theorem C7_amended_thm (e : String) (d : Option (Option String)) :
    (mkErrorResponse none e d).success = false ∧
    (∀ b, (mkErrorResponse (some b) e d).success = b) :=
  ⟨rfl, fun _ => rfl⟩

/-- Claim C8: the four domain error kinds carry exactly the specified
HTTP statuses and messages — 404 "Filing with id '<filing_id>' not found",
409 "Filing with id '<filing_id>' already exists", 500 with default detail
"Database operation failed", and 422 with default detail
"Validation failed". -/
theorem C8_thm (fid : String) :
    FilingNotFound fid =
      { status_code := 404,
        detail := "Filing with id " ++ apos ++ fid ++ apos ++ " not found" } ∧
    FilingAlreadyExists fid =
      { status_code := 409,
        detail := "Filing with id " ++ apos ++ fid ++ apos ++ " already exists" } ∧
    DatabaseError none =
      { status_code := 500, detail := "Database operation failed" } ∧
    ValidationError none =
      { status_code := 422, detail := "Validation failed" } :=
  ⟨rfl, rfl, rfl, rfl⟩

/-- Claim C9: the list-filings and get-filing stub endpoints echo the
caller's consumer and user-id header values unchanged, always return an
empty filings list (respectively the requested path id), and their output
is independent of the persisted store — the same request against any two
database states yields identical responses, so no filing-service data can
flow into them. -/
theorem C9_thm (hs : Headers) (db1 db2 : Store) (fid : String) :
    listFilingsEndpoint hs db1 = listFilingsEndpoint hs db2 ∧
    getFilingEndpoint fid hs db1 = getFilingEndpoint fid hs db2 ∧
    (listFilingsEndpoint hs db1).filings = [] ∧
    (listFilingsEndpoint hs db1).consumer =
      headerValue hs settings.apisix_consumer_header ∧
    (listFilingsEndpoint hs db1).user_id =
      headerValue hs settings.apisix_user_id_header ∧
    (getFilingEndpoint fid hs db1).consumer =
      headerValue hs settings.apisix_consumer_header ∧
    (getFilingEndpoint fid hs db1).user_id =
      headerValue hs settings.apisix_user_id_header ∧
    (getFilingEndpoint fid hs db1).filing_id = fid :=
  ⟨rfl, rfl, rfl, rfl, rfl, rfl, rfl, rfl⟩

/-- Claim C10: `update_filing` never changes the target filing's
`filing_id`, `id` or `created_at` — the patch type carries only the four
mutable fields, so on the record an update returns those three fields
always equal the prior record's values. -/
theorem C10_thm (s : Store) (fid : String) (p : FilingUpdate) (f : FilingRow)
    (h : getFilingById s fid = some f) :
    ∃ r, (updateFiling s fid p).1 = some r ∧
      r.filing_id = f.filing_id ∧ r.id = f.id ∧ r.created_at = f.created_at := by
  unfold updateFiling
  rw [h]
  refine ⟨_, rfl, ?_, ?_, ?_⟩ <;>
    cases hP : p.hasSetField <;>
    simp [hP, applyPatch]

/-- Claim C10 at a concrete input: updating `st1`'s filing `"F1"` with
`patch1` preserves its external id, primary key and creation timestamp. -/
theorem C10_witness :
    ∃ r, (updateFiling st1 "F1" patch1).1 = some r ∧
      r.filing_id = row1.filing_id ∧ r.id = row1.id ∧
      r.created_at = row1.created_at :=
  C10_thm st1 "F1" patch1 row1 (by decide)

end Dagobah
